import Mathlib

/-!
Shallow embedding of the `erc20` ink! contract (`src/lib.rs`) and proofs of
the specification's claims about it.

Modelling choices:
- `AccountId` (an opaque 32-byte identifier, only compared for equality) is
  modelled as `Nat`.
- token amounts (`Balance = u128` in the source) are modelled as `Nat`; the 128-bit range
  bound `U128` is stated separately wherever overflow matters.
- `ink_storage::collections::HashMap` is modelled as an association list with
  first-match lookup (absent key reads as `0`, matching `unwrap_or(&0)`) and
  in-place–replacing insert, mirroring `HashMap::insert`.
- Each contract message mutates `self` and emits events through the
  environment; the embedding makes this explicit: every helper returns the
  new state, the `Result` value, and the list of events emitted by the call.
-/

/-- Account identifiers: opaque, equality-comparable; modelled as naturals. -/
abbrev AccountId := Nat

/-- The number of values of the 128-bit unsigned amount type (`u128`). -/
def U128 : Nat := 2 ^ 128

/-- First-match lookup in an association list, defaulting to `0`; mirrors
`*self.balances.get(&owner).unwrap_or(&0)`. -/
def lookupD {K : Type} [DecidableEq K] : List (K × Nat) → K → Nat
  | [], _ => 0
  | (k', v) :: rest, k => if k' = k then v else lookupD rest k

/-- Insert into an association list, replacing the first binding of the key
in place, or appending a new binding; mirrors `HashMap::insert`. -/
def insertM {K : Type} [DecidableEq K] : List (K × Nat) → K → Nat → List (K × Nat)
  | [], k, v => [(k, v)]
  | (k', v') :: rest, k, v =>
      if k' = k then (k, v) :: rest else (k', v') :: insertM rest k v

/-- Sum of all stored values of an association list, `sum(m.values())`. -/
def sumVals {K : Type} (m : List (K × Nat)) : Nat := (m.map Prod.snd).sum

/-- The contract's storage struct `Erc20`. -/
structure Erc20 where
  issuer : AccountId
  total_supply : Nat
  balances : List (AccountId × Nat)
  allowances : List ((AccountId × AccountId) × Nat)
  deriving DecidableEq, Repr

/-- The contract's `Error` enum (spelling kept from the source). -/
inductive Error where
  | InsufficentBalance
  | InsufficentAllowance
  | NotIssuer
  deriving DecidableEq, Repr

/-- The value of `Result<()>` returned by a message. -/
inductive TxResult where
  | ok : TxResult
  | err : Error → TxResult
  deriving DecidableEq, Repr

/-- The contract's events. Field names follow the source (`from` is a Lean
keyword, so it is rendered `src`). -/
inductive Event where
  | Create (src : AccountId) (total_supply : Nat)
  | Transfer (src dst : AccountId) (value : Nat)
  | Approval (owner spender : AccountId) (value : Nat)
  | TransferFrom (src owner dst : AccountId) (value : Nat)
  | Burn (src : AccountId) (value : Nat)
  | Issue (issuer : AccountId) (value : Nat)
  deriving DecidableEq, Repr

/-- Constructor `new`: the caller becomes the issuer, receives the whole
initial supply, and a `Create` event is emitted. -/
def new (total_supply : Nat) (caller : AccountId) : Erc20 × List Event :=
  ({ issuer := caller
     total_supply := total_supply
     balances := insertM [] caller total_supply
     allowances := [] },
   [Event.Create caller total_supply])

/-- Message `balance_of`: stored balance, or `0` if absent. -/
def balance_of (s : Erc20) (owner : AccountId) : Nat :=
  lookupD s.balances owner

/-- Message `allowance`: stored allowance for `(owner, spender)`, or `0`. -/
def allowance (s : Erc20) (owner spender : AccountId) : Nat :=
  lookupD s.allowances (owner, spender)

/-- Helper `transfer_help` (the body of message `transfer`, with the caller
made an explicit argument `src`). -/
def transfer_help (s : Erc20) (src dst : AccountId) (value : Nat) :
    Erc20 × TxResult × List Event :=
  let from_balance := balance_of s src
  if from_balance < value then
    (s, TxResult.err Error.InsufficentBalance, [])
  else
    let s1 : Erc20 := { s with balances := insertM s.balances src (from_balance - value) }
    let to_balance := balance_of s1 dst
    let s2 : Erc20 := { s1 with balances := insertM s1.balances dst (to_balance + value) }
    (s2, TxResult.ok, [Event.Transfer src dst value])

/-- Helper `approve_help` (the body of message `approve`, with the caller
made an explicit argument `owner`). -/
def approve_help (s : Erc20) (owner spender : AccountId) (value : Nat) :
    Erc20 × TxResult × List Event :=
  let owner_balance := balance_of s owner
  if owner_balance < value then
    (s, TxResult.err Error.InsufficentBalance, [])
  else
    let s1 : Erc20 := { s with balances := insertM s.balances owner (owner_balance - value) }
    let allow := allowance s1 owner spender
    let s2 : Erc20 := { s1 with allowances := insertM s1.allowances (owner, spender) (allow + value) }
    (s2, TxResult.ok, [Event.Approval owner spender value])

/-- Helper `transfer_from_help` (the body of message `transfer_from`; the
caller, acting as the spender, is the explicit argument `src`). -/
def transfer_from_help (s : Erc20) (src owner dst : AccountId) (value : Nat) :
    Erc20 × TxResult × List Event :=
  let allow := allowance s owner src
  if allow < value then
    (s, TxResult.err Error.InsufficentAllowance, [])
  else
    let s1 : Erc20 := { s with allowances := insertM s.allowances (owner, src) (allow - value) }
    let to_balance := balance_of s1 dst
    let s2 : Erc20 := { s1 with balances := insertM s1.balances dst (to_balance + value) }
    (s2, TxResult.ok, [Event.TransferFrom src owner dst value])

/-- Helper `burn_help` (the body of message `burn`). -/
def burn_help (s : Erc20) (src : AccountId) (value : Nat) :
    Erc20 × TxResult × List Event :=
  let from_balance := balance_of s src
  if from_balance < value then
    (s, TxResult.err Error.InsufficentBalance, [])
  else
    let s1 : Erc20 := { s with balances := insertM s.balances src (from_balance - value) }
    let s2 : Erc20 := { s1 with total_supply := s1.total_supply - value }
    (s2, TxResult.ok, [Event.Burn src value])

/-- Helper `issue_help` (the body of message `issue`). -/
def issue_help (s : Erc20) (src : AccountId) (value : Nat) :
    Erc20 × TxResult × List Event :=
  if src ≠ s.issuer then
    (s, TxResult.err Error.NotIssuer, [])
  else
    let from_balance := balance_of s src
    let s1 : Erc20 := { s with balances := insertM s.balances src (from_balance + value) }
    let s2 : Erc20 := { s1 with total_supply := s1.total_supply + value }
    (s2, TxResult.ok, [Event.Issue src value])

/-- Reachable ledger states: the state right after the constructor, and any
state obtained from a reachable one by one of the five mutating messages
(failing calls return the state unchanged, so they are covered too). -/
inductive Reachable : Erc20 → Prop where
  | init (ts : Nat) (caller : AccountId) : Reachable (new ts caller).1
  | transfer (s : Erc20) (src dst : AccountId) (v : Nat) :
      Reachable s → Reachable (transfer_help s src dst v).1
  | approve (s : Erc20) (owner spender : AccountId) (v : Nat) :
      Reachable s → Reachable (approve_help s owner spender v).1
  | transferFrom (s : Erc20) (src owner dst : AccountId) (v : Nat) :
      Reachable s → Reachable (transfer_from_help s src owner dst v).1
  | burn (s : Erc20) (src : AccountId) (v : Nat) :
      Reachable s → Reachable (burn_help s src v).1
  | issue (s : Erc20) (src : AccountId) (v : Nat) :
      Reachable s → Reachable (issue_help s src v).1

/-- The conservation equation that actually holds of this ledger: stored
balances plus stored allowances account for the whole supply. -/
def conserved (s : Erc20) : Prop :=
  sumVals s.balances + sumVals s.allowances = s.total_supply

instance conservedDecidable (s : Erc20) : Decidable (conserved s) :=
  inferInstanceAs (Decidable (sumVals s.balances + sumVals s.allowances = s.total_supply))

/-- The additions `transfer_help` performs on its success path stay below
the `u128` limit (the recipient balance is re-read after the sender debit,
so that intermediate map appears here). -/
def transferAddsFit (s : Erc20) (a b : AccountId) (v : Nat) : Prop :=
  v ≤ balance_of s a →
    lookupD (insertM s.balances a (balance_of s a - v)) b + v < U128

/-- The addition `approve_help` performs on its success path stays below
the `u128` limit. -/
def approveAddsFit (s : Erc20) (o sp : AccountId) (v : Nat) : Prop :=
  v ≤ balance_of s o → allowance s o sp + v < U128

/-- The addition `transfer_from_help` performs on its success path stays
below the `u128` limit. -/
def transferFromAddsFit (s : Erc20) (c o d : AccountId) (v : Nat) : Prop :=
  v ≤ allowance s o c → balance_of s d + v < U128

/-- The two additions `issue_help` performs on its success path stay below
the `u128` limit. -/
def issueAddsFit (s : Erc20) (a : AccountId) (v : Nat) : Prop :=
  a = s.issuer → balance_of s a + v < U128 ∧ s.total_supply + v < U128

/-- Every subtraction an operation performs is covered by the comparison the
operation made before mutating: a successful call implies the subtracted
amount was bounded. -/
def subGuards (s : Erc20) (a b o sp c d : AccountId) (v : Nat) : Prop :=
  ((transfer_help s a b v).2.1 = TxResult.ok → v ≤ balance_of s a) ∧
  ((approve_help s o sp v).2.1 = TxResult.ok → v ≤ balance_of s o) ∧
  ((transfer_from_help s c o d v).2.1 = TxResult.ok → v ≤ allowance s o c) ∧
  ((burn_help s a v).2.1 = TxResult.ok → v ≤ balance_of s a ∧ v ≤ s.total_supply)

/-- Claim C4 rendered as a proposition: in every reachable state, every
subtraction is guarded by its precondition comparison and no addition any
operation performs reaches the `u128` limit. -/
def claimC4 : Prop :=
  ∀ s, Reachable s → ∀ a b o sp c d v,
    subGuards s a b o sp c d v ∧ transferAddsFit s a b v ∧
    approveAddsFit s o sp v ∧ transferFromAddsFit s c o d v ∧
    issueAddsFit s a v

/-- A small concrete ledger: account 0 constructs with supply 10. -/
def ex0 : Erc20 := (new 10 0).1

/-- The small ledger after account 0 approves 5 to account 1. -/
def exApprove : Erc20 := (approve_help ex0 0 1 5).1

/-- A ledger constructed with the largest representable supply. -/
def exBig : Erc20 := (new (U128 - 1) 0).1

/-- Lookup after inserting the same key returns the inserted value. -/
theorem lookupD_insertM_self {K : Type} [DecidableEq K]
    (m : List (K × Nat)) (k : K) (v : Nat) :
    lookupD (insertM m k v) k = v := by
  induction m with
  | nil => simp [insertM, lookupD]
  | cons p rest ih =>
      obtain ⟨k', v'⟩ := p
      by_cases h : k' = k
      · simp [insertM, h, lookupD]
      · simp [insertM, h, lookupD, ih]

/-- Lookup at a different key is unchanged by an insert. -/
theorem lookupD_insertM_ne {K : Type} [DecidableEq K]
    (m : List (K × Nat)) (k q : K) (v : Nat) (h : q ≠ k) :
    lookupD (insertM m k v) q = lookupD m q := by
  induction m with
  | nil =>
      simp only [insertM, lookupD]
      rw [if_neg (fun hkq : k = q => h hkq.symm)]
  | cons p rest ih =>
      obtain ⟨k', v'⟩ := p
      simp only [insertM]
      by_cases hk : k' = k
      · rw [if_pos hk]
        simp only [lookupD]
        rw [if_neg (fun hkq : k = q => h hkq.symm),
            if_neg (fun hkq : k' = q => h (hkq ▸ hk))]
      · rw [if_neg hk]
        simp only [lookupD, ih]

/-- How an insert moves the sum of values: the old first binding of the key
is replaced by the new value. -/
theorem sumVals_insertM {K : Type} [DecidableEq K]
    (m : List (K × Nat)) (k : K) (v : Nat) :
    sumVals (insertM m k v) + lookupD m k = sumVals m + v := by
  induction m with
  | nil => simp [insertM, lookupD, sumVals]
  | cons p rest ih =>
      obtain ⟨k', v'⟩ := p
      by_cases h : k' = k
      · simp only [insertM, if_pos h, lookupD, sumVals, List.map, List.sum_cons]
        omega
      · simp only [insertM, if_neg h, lookupD, sumVals, List.map, List.sum_cons]
        simp only [sumVals] at ih
        omega

/-- Every stored value is at most the sum of all stored values. -/
theorem lookupD_le_sumVals {K : Type} [DecidableEq K]
    (m : List (K × Nat)) (k : K) :
    lookupD m k ≤ sumVals m := by
  induction m with
  | nil => simp [lookupD, sumVals]
  | cons p rest ih =>
      obtain ⟨k', v'⟩ := p
      by_cases h : k' = k
      · simp only [lookupD, if_pos h, sumVals, List.map, List.sum_cons]
        omega
      · simp only [lookupD, if_neg h, sumVals, List.map, List.sum_cons]
        simp only [sumVals] at ih
        omega

/-- Shape of `transfer_help` when the balance check fails. -/
theorem transfer_help_lt (s : Erc20) (a b : AccountId) (v : Nat)
    (h : balance_of s a < v) :
    transfer_help s a b v = (s, TxResult.err Error.InsufficentBalance, []) := by
  simp only [transfer_help]
  rw [if_pos h]

/-- Shape of `transfer_help` when the balance check passes. -/
theorem transfer_help_ge (s : Erc20) (a b : AccountId) (v : Nat)
    (h : v ≤ balance_of s a) :
    transfer_help s a b v =
      ({ s with balances := insertM (insertM s.balances a (balance_of s a - v)) b (lookupD (insertM s.balances a (balance_of s a - v)) b + v) }, TxResult.ok, [Event.Transfer a b v]) := by
  simp only [transfer_help, balance_of]
  rw [if_neg (show ¬ lookupD s.balances a < v from Nat.not_lt.mpr h)]

/-- Shape of `approve_help` when the balance check fails. -/
theorem approve_help_lt (s : Erc20) (o sp : AccountId) (v : Nat)
    (h : balance_of s o < v) :
    approve_help s o sp v = (s, TxResult.err Error.InsufficentBalance, []) := by
  simp only [approve_help]
  rw [if_pos h]

/-- Shape of `approve_help` when the balance check passes. -/
theorem approve_help_ge (s : Erc20) (o sp : AccountId) (v : Nat)
    (h : v ≤ balance_of s o) :
    approve_help s o sp v =
      ({ s with balances := insertM s.balances o (balance_of s o - v), allowances := insertM s.allowances (o, sp) (lookupD s.allowances (o, sp) + v) }, TxResult.ok, [Event.Approval o sp v]) := by
  simp only [approve_help, balance_of, allowance]
  rw [if_neg (show ¬ lookupD s.balances o < v from Nat.not_lt.mpr h)]

/-- Shape of `transfer_from_help` when the allowance check fails. -/
theorem transfer_from_help_lt (s : Erc20) (c o d : AccountId) (v : Nat)
    (h : allowance s o c < v) :
    transfer_from_help s c o d v = (s, TxResult.err Error.InsufficentAllowance, []) := by
  simp only [transfer_from_help]
  rw [if_pos h]

/-- Shape of `transfer_from_help` when the allowance check passes. -/
theorem transfer_from_help_ge (s : Erc20) (c o d : AccountId) (v : Nat)
    (h : v ≤ allowance s o c) :
    transfer_from_help s c o d v =
      ({ s with allowances := insertM s.allowances (o, c) (allowance s o c - v), balances := insertM s.balances d (lookupD s.balances d + v) }, TxResult.ok, [Event.TransferFrom c o d v]) := by
  simp only [transfer_from_help, balance_of, allowance]
  rw [if_neg (show ¬ lookupD s.allowances (o, c) < v from Nat.not_lt.mpr h)]

/-- Shape of `burn_help` when the balance check fails. -/
theorem burn_help_lt (s : Erc20) (a : AccountId) (v : Nat)
    (h : balance_of s a < v) :
    burn_help s a v = (s, TxResult.err Error.InsufficentBalance, []) := by
  simp only [burn_help]
  rw [if_pos h]

/-- Shape of `burn_help` when the balance check passes. -/
theorem burn_help_ge (s : Erc20) (a : AccountId) (v : Nat)
    (h : v ≤ balance_of s a) :
    burn_help s a v =
      ({ s with balances := insertM s.balances a (balance_of s a - v), total_supply := s.total_supply - v }, TxResult.ok, [Event.Burn a v]) := by
  simp only [burn_help, balance_of]
  rw [if_neg (show ¬ lookupD s.balances a < v from Nat.not_lt.mpr h)]

/-- Shape of `issue_help` for a caller other than the issuer. -/
theorem issue_help_ne (s : Erc20) (a : AccountId) (v : Nat)
    (h : a ≠ s.issuer) :
    issue_help s a v = (s, TxResult.err Error.NotIssuer, []) := by
  simp only [issue_help]
  rw [if_pos h]

/-- Shape of `issue_help` for the issuer. -/
theorem issue_help_eq (s : Erc20) (a : AccountId) (v : Nat)
    (h : a = s.issuer) :
    issue_help s a v =
      ({ s with balances := insertM s.balances a (balance_of s a + v), total_supply := s.total_supply + v }, TxResult.ok, [Event.Issue a v]) := by
  simp only [issue_help, balance_of]
  rw [if_neg (not_not_intro h)]

/-- The constructor establishes conservation. -/
theorem conserved_new (ts : Nat) (c : AccountId) : conserved (new ts c).1 := by
  simp [conserved, new, insertM, sumVals]

/-- `transfer_help` preserves conservation. -/
theorem conserved_transfer (s : Erc20) (a b : AccountId) (v : Nat)
    (hc : conserved s) : conserved (transfer_help s a b v).1 := by
  by_cases h : balance_of s a < v
  · rw [transfer_help_lt s a b v h]
    exact hc
  · rw [transfer_help_ge s a b v (Nat.le_of_not_lt h)]
    simp only [conserved, balance_of] at *
    have e1 := sumVals_insertM s.balances a (lookupD s.balances a - v)
    have e2 := sumVals_insertM (insertM s.balances a (lookupD s.balances a - v)) b
      (lookupD (insertM s.balances a (lookupD s.balances a - v)) b + v)
    have h' := Nat.le_of_not_lt h
    omega

/-- `approve_help` preserves conservation. -/
theorem conserved_approve (s : Erc20) (o sp : AccountId) (v : Nat)
    (hc : conserved s) : conserved (approve_help s o sp v).1 := by
  by_cases h : balance_of s o < v
  · rw [approve_help_lt s o sp v h]
    exact hc
  · rw [approve_help_ge s o sp v (Nat.le_of_not_lt h)]
    simp only [conserved, balance_of] at *
    have e1 := sumVals_insertM s.balances o (lookupD s.balances o - v)
    have e2 := sumVals_insertM s.allowances (o, sp) (lookupD s.allowances (o, sp) + v)
    have h' := Nat.le_of_not_lt h
    omega

/-- `transfer_from_help` preserves conservation. -/
theorem conserved_transfer_from (s : Erc20) (c o d : AccountId) (v : Nat)
    (hc : conserved s) : conserved (transfer_from_help s c o d v).1 := by
  by_cases h : allowance s o c < v
  · rw [transfer_from_help_lt s c o d v h]
    exact hc
  · rw [transfer_from_help_ge s c o d v (Nat.le_of_not_lt h)]
    simp only [conserved, allowance] at *
    have e1 := sumVals_insertM s.allowances (o, c) (lookupD s.allowances (o, c) - v)
    have e2 := sumVals_insertM s.balances d (lookupD s.balances d + v)
    have h' := Nat.le_of_not_lt h
    omega

/-- `burn_help` preserves conservation. -/
theorem conserved_burn (s : Erc20) (a : AccountId) (v : Nat)
    (hc : conserved s) : conserved (burn_help s a v).1 := by
  by_cases h : balance_of s a < v
  · rw [burn_help_lt s a v h]
    exact hc
  · rw [burn_help_ge s a v (Nat.le_of_not_lt h)]
    simp only [conserved, balance_of] at *
    have e1 := sumVals_insertM s.balances a (lookupD s.balances a - v)
    have e2 := lookupD_le_sumVals s.balances a
    have h' := Nat.le_of_not_lt h
    omega

/-- `issue_help` preserves conservation. -/
theorem conserved_issue (s : Erc20) (a : AccountId) (v : Nat)
    (hc : conserved s) : conserved (issue_help s a v).1 := by
  by_cases h : a = s.issuer
  · rw [issue_help_eq s a v h]
    simp only [conserved, balance_of] at *
    have e1 := sumVals_insertM s.balances a (lookupD s.balances a + v)
    have e2 := lookupD_le_sumVals s.balances a
    omega
  · rw [issue_help_ne s a v h]
    exact hc

/-- Conservation holds of every reachable state. -/
theorem reachable_conserved (s : Erc20) (h : Reachable s) : conserved s := by
  induction h with
  | init ts c => exact conserved_new ts c
  | transfer s a b v _ ih => exact conserved_transfer s a b v ih
  | approve s o sp v _ ih => exact conserved_approve s o sp v ih
  | transferFrom s c o d v _ ih => exact conserved_transfer_from s c o d v ih
  | burn s a v _ ih => exact conserved_burn s a v ih
  | issue s a v _ ih => exact conserved_issue s a v ih

/-- Sender balance after a successful transfer to a different account. -/
theorem transfer_balance_src (s : Erc20) (a b : AccountId) (v : Nat)
    (h : v ≤ balance_of s a) (hne : a ≠ b) :
    balance_of (transfer_help s a b v).1 a = balance_of s a - v := by
  rw [transfer_help_ge s a b v h]
  simp only [balance_of]
  rw [lookupD_insertM_ne _ _ _ _ hne, lookupD_insertM_self]

/-- Recipient balance after a successful transfer from a different account. -/
theorem transfer_balance_dst (s : Erc20) (a b : AccountId) (v : Nat)
    (h : v ≤ balance_of s a) (hne : a ≠ b) :
    balance_of (transfer_help s a b v).1 b = balance_of s b + v := by
  rw [transfer_help_ge s a b v h]
  simp only [balance_of]
  rw [lookupD_insertM_self, lookupD_insertM_ne _ _ _ _ (fun hba => hne hba.symm)]

/-- Uninvolved balances are unchanged by a successful transfer. -/
theorem transfer_balance_other (s : Erc20) (a b x : AccountId) (v : Nat)
    (h : v ≤ balance_of s a) (hxa : x ≠ a) (hxb : x ≠ b) :
    balance_of (transfer_help s a b v).1 x = balance_of s x := by
  rw [transfer_help_ge s a b v h]
  simp only [balance_of]
  rw [lookupD_insertM_ne _ _ _ _ hxb, lookupD_insertM_ne _ _ _ _ hxa]

/-- A successful self-transfer leaves every balance unchanged. -/
theorem transfer_balance_self (s : Erc20) (a x : AccountId) (v : Nat)
    (h : v ≤ balance_of s a) :
    balance_of (transfer_help s a a v).1 x = balance_of s x := by
  rw [transfer_help_ge s a a v h]
  simp only [balance_of] at h ⊢
  by_cases hx : x = a
  · subst hx
    rw [lookupD_insertM_self, lookupD_insertM_self]
    exact Nat.sub_add_cancel h
  · rw [lookupD_insertM_ne _ _ _ _ hx, lookupD_insertM_ne _ _ _ _ hx]

/-- Allowances are untouched by `transfer_help`. -/
theorem transfer_allowances (s : Erc20) (a b : AccountId) (v : Nat) :
    (transfer_help s a b v).1.allowances = s.allowances := by
  by_cases h : balance_of s a < v
  · rw [transfer_help_lt s a b v h]
  · rw [transfer_help_ge s a b v (Nat.le_of_not_lt h)]

/-- Owner balance after a successful approve. -/
theorem approve_balance_owner (s : Erc20) (o sp : AccountId) (v : Nat)
    (h : v ≤ balance_of s o) :
    balance_of (approve_help s o sp v).1 o = balance_of s o - v := by
  rw [approve_help_ge s o sp v h]
  simp only [balance_of]
  rw [lookupD_insertM_self]

/-- Other balances are unchanged by a successful approve. -/
theorem approve_balance_other (s : Erc20) (o sp x : AccountId) (v : Nat)
    (h : v ≤ balance_of s o) (hx : x ≠ o) :
    balance_of (approve_help s o sp v).1 x = balance_of s x := by
  rw [approve_help_ge s o sp v h]
  simp only [balance_of]
  rw [lookupD_insertM_ne _ _ _ _ hx]

/-- The pair allowance accumulates on a successful approve. -/
theorem approve_allowance_pair (s : Erc20) (o sp : AccountId) (v : Nat)
    (h : v ≤ balance_of s o) :
    allowance (approve_help s o sp v).1 o sp = allowance s o sp + v := by
  rw [approve_help_ge s o sp v h]
  simp only [allowance]
  rw [lookupD_insertM_self]

/-- Recipient balance after a successful delegated transfer. -/
theorem transfer_from_balance_dst (s : Erc20) (c o d : AccountId) (v : Nat)
    (h : v ≤ allowance s o c) :
    balance_of (transfer_from_help s c o d v).1 d = balance_of s d + v := by
  rw [transfer_from_help_ge s c o d v h]
  simp only [balance_of]
  rw [lookupD_insertM_self]

/-- Balances other than the recipient's are unchanged by a successful
delegated transfer. -/
theorem transfer_from_balance_other (s : Erc20) (c o d x : AccountId) (v : Nat)
    (h : v ≤ allowance s o c) (hx : x ≠ d) :
    balance_of (transfer_from_help s c o d v).1 x = balance_of s x := by
  rw [transfer_from_help_ge s c o d v h]
  simp only [balance_of]
  rw [lookupD_insertM_ne _ _ _ _ hx]

/-- The pair allowance decreases on a successful delegated transfer. -/
theorem transfer_from_allowance_pair (s : Erc20) (c o d : AccountId) (v : Nat)
    (h : v ≤ allowance s o c) :
    allowance (transfer_from_help s c o d v).1 o c = allowance s o c - v := by
  rw [transfer_from_help_ge s c o d v h]
  simp only [allowance]
  rw [lookupD_insertM_self]

/-- Issuer balance after a successful issue. -/
theorem issue_balance (s : Erc20) (a : AccountId) (v : Nat)
    (h : a = s.issuer) :
    balance_of (issue_help s a v).1 a = balance_of s a + v := by
  rw [issue_help_eq s a v h]
  simp only [balance_of]
  rw [lookupD_insertM_self]

/-- Total supply after a successful issue. -/
theorem issue_total (s : Erc20) (a : AccountId) (v : Nat)
    (h : a = s.issuer) :
    (issue_help s a v).1.total_supply = s.total_supply + v := by
  rw [issue_help_eq s a v h]

/-- Claim C9: conservation including allowances. In every reachable state the
sum of stored balances plus the sum of stored allowances equals total_supply,
and each of the five operations preserves this equation from any state
satisfying it. -/
theorem C9_conservation (s : Erc20) :
    (Reachable s → sumVals s.balances + sumVals s.allowances = s.total_supply) ∧
    (conserved s → ∀ a b v, conserved (transfer_help s a b v).1) ∧
    (conserved s → ∀ o sp v, conserved (approve_help s o sp v).1) ∧
    (conserved s → ∀ c o d v, conserved (transfer_from_help s c o d v).1) ∧
    (conserved s → ∀ a v, conserved (burn_help s a v).1) ∧
    (conserved s → ∀ a v, conserved (issue_help s a v).1) :=
  ⟨fun h => reachable_conserved s h,
   fun hc a b v => conserved_transfer s a b v hc,
   fun hc o sp v => conserved_approve s o sp v hc,
   fun hc c o d v => conserved_transfer_from s c o d v hc,
   fun hc a v => conserved_burn s a v hc,
   fun hc a v => conserved_issue s a v hc⟩

/-- Witness for C9 on a concrete reachable ledger. -/
theorem C9_conservation_witness :
    (sumVals ex0.balances + sumVals ex0.allowances = ex0.total_supply) ∧
    conserved (transfer_help ex0 0 1 4).1 ∧
    conserved (approve_help ex0 0 1 4).1 ∧
    conserved (transfer_from_help ex0 1 0 2 0).1 ∧
    conserved (burn_help ex0 0 4).1 ∧
    conserved (issue_help ex0 0 4).1 :=
  ⟨(C9_conservation ex0).1 (Reachable.init 10 0),
   (C9_conservation ex0).2.1 (by decide) 0 1 4,
   (C9_conservation ex0).2.2.1 (by decide) 0 1 4,
   (C9_conservation ex0).2.2.2.1 (by decide) 1 0 2 0,
   (C9_conservation ex0).2.2.2.2.1 (by decide) 0 4,
   (C9_conservation ex0).2.2.2.2.2 (by decide) 0 4⟩

/-- Claim C1 fails as stated: after a successful `approve` the sum of stored
balances no longer equals total_supply, already in a reachable state. -/
theorem C1_counterexample :
    Reachable exApprove ∧ sumVals exApprove.balances ≠ exApprove.total_supply :=
  ⟨Reachable.approve ex0 0 1 5 (Reachable.init 10 0), by decide⟩

/-- Claim C1 (amended): in every reachable state the sum of stored balances
equals total_supply minus the sum of outstanding allowances, which never
exceed total_supply; the unqualified equation of the claim holds only while
no allowance is outstanding. -/
theorem C1_balance_sum_amended (s : Erc20) (h : Reachable s) :
    sumVals s.balances = s.total_supply - sumVals s.allowances ∧
    sumVals s.allowances ≤ s.total_supply := by
  have hc := reachable_conserved s h
  simp only [conserved] at hc
  omega

/-- Witness for the amended C1 on a concrete reachable ledger. -/
theorem C1_balance_sum_amended_witness :
    sumVals exApprove.balances = exApprove.total_supply - sumVals exApprove.allowances ∧
    sumVals exApprove.allowances ≤ exApprove.total_supply :=
  C1_balance_sum_amended exApprove (Reachable.approve ex0 0 1 5 (Reachable.init 10 0))

/-- Claim C2: `approve` succeeds exactly when the owner's balance covers the
value, debiting the owner's balance and accumulating onto the existing
allowance of the pair; otherwise it fails with InsufficentBalance, its only
failure. -/
theorem C2_approve_spec (s : Erc20) (o sp : AccountId) (v : Nat) :
    (v ≤ balance_of s o →
       (approve_help s o sp v).2.1 = TxResult.ok ∧
       balance_of (approve_help s o sp v).1 o = balance_of s o - v ∧
       allowance (approve_help s o sp v).1 o sp = allowance s o sp + v) ∧
    (balance_of s o < v →
       (approve_help s o sp v).2.1 = TxResult.err Error.InsufficentBalance ∧
       (approve_help s o sp v).1 = s) ∧
    (∀ e, (approve_help s o sp v).2.1 = TxResult.err e →
       e = Error.InsufficentBalance ∧ balance_of s o < v) := by
  refine ⟨fun h => ⟨?_, approve_balance_owner s o sp v h, approve_allowance_pair s o sp v h⟩,
          fun h => ?_, fun e he => ?_⟩
  · rw [approve_help_ge s o sp v h]
  · rw [approve_help_lt s o sp v h]
    exact ⟨rfl, rfl⟩
  · by_cases h : balance_of s o < v
    · rw [approve_help_lt s o sp v h] at he
      simp only [Prod.snd, Prod.fst] at he
      cases he
      exact ⟨rfl, h⟩
    · rw [approve_help_ge s o sp v (Nat.le_of_not_lt h)] at he
      simp at he

/-- Witness for C2 on a concrete ledger, one successful and one failing
approve. -/
theorem C2_approve_spec_witness :
    ((approve_help ex0 0 1 5).2.1 = TxResult.ok ∧
     balance_of (approve_help ex0 0 1 5).1 0 = balance_of ex0 0 - 5 ∧
     allowance (approve_help ex0 0 1 5).1 0 1 = allowance ex0 0 1 + 5) ∧
    ((approve_help ex0 0 1 20).2.1 = TxResult.err Error.InsufficentBalance ∧
     (approve_help ex0 0 1 20).1 = ex0) :=
  ⟨(C2_approve_spec ex0 0 1 5).1 (by decide),
   (C2_approve_spec ex0 0 1 20).2.1 (by decide)⟩

/-- Claim C3: whenever any of the five mutating operations returns an error,
the whole state (balances, allowances, total_supply, issuer) is exactly the
state before the call. -/
theorem C3_failure_atomicity (s : Erc20) (a b o sp c d : AccountId) (v : Nat) :
    (∀ e, (transfer_help s a b v).2.1 = TxResult.err e → (transfer_help s a b v).1 = s) ∧
    (∀ e, (approve_help s o sp v).2.1 = TxResult.err e → (approve_help s o sp v).1 = s) ∧
    (∀ e, (transfer_from_help s c o d v).2.1 = TxResult.err e → (transfer_from_help s c o d v).1 = s) ∧
    (∀ e, (burn_help s a v).2.1 = TxResult.err e → (burn_help s a v).1 = s) ∧
    (∀ e, (issue_help s a v).2.1 = TxResult.err e → (issue_help s a v).1 = s) := by
  refine ⟨fun e he => ?_, fun e he => ?_, fun e he => ?_, fun e he => ?_, fun e he => ?_⟩
  · by_cases h : balance_of s a < v
    · rw [transfer_help_lt s a b v h]
    · rw [transfer_help_ge s a b v (Nat.le_of_not_lt h)] at he
      simp at he
  · by_cases h : balance_of s o < v
    · rw [approve_help_lt s o sp v h]
    · rw [approve_help_ge s o sp v (Nat.le_of_not_lt h)] at he
      simp at he
  · by_cases h : allowance s o c < v
    · rw [transfer_from_help_lt s c o d v h]
    · rw [transfer_from_help_ge s c o d v (Nat.le_of_not_lt h)] at he
      simp at he
  · by_cases h : balance_of s a < v
    · rw [burn_help_lt s a v h]
    · rw [burn_help_ge s a v (Nat.le_of_not_lt h)] at he
      simp at he
  · by_cases h : a = s.issuer
    · rw [issue_help_eq s a v h] at he
      simp at he
    · rw [issue_help_ne s a v h]

/-- Witness for C3: one concrete failing call of each operation leaves the
concrete ledger unchanged. -/
theorem C3_failure_atomicity_witness :
    (transfer_help ex0 1 0 5).1 = ex0 ∧
    (approve_help ex0 1 0 5).1 = ex0 ∧
    (transfer_from_help ex0 1 1 2 5).1 = ex0 ∧
    (burn_help ex0 1 5).1 = ex0 ∧
    (issue_help ex0 1 5).1 = ex0 :=
  ⟨(C3_failure_atomicity ex0 1 0 1 0 1 2 5).1 Error.InsufficentBalance (by decide),
   (C3_failure_atomicity ex0 1 0 1 0 1 2 5).2.1 Error.InsufficentBalance (by decide),
   (C3_failure_atomicity ex0 1 0 1 0 1 2 5).2.2.1 Error.InsufficentAllowance (by decide),
   (C3_failure_atomicity ex0 1 0 1 0 1 2 5).2.2.2.1 Error.InsufficentBalance (by decide),
   (C3_failure_atomicity ex0 1 0 1 0 1 2 5).2.2.2.2 Error.NotIssuer (by decide)⟩

/-- Claim C5: `transfer` succeeds exactly when the caller's balance covers
the value, debiting the caller and crediting the recipient (net zero on a
self-transfer) and touching no other balance; otherwise it fails with
InsufficentBalance. -/
theorem C5_transfer_spec (s : Erc20) (caller dst : AccountId) (v : Nat) :
    (v ≤ balance_of s caller →
       (transfer_help s caller dst v).2.1 = TxResult.ok ∧
       (caller ≠ dst →
          balance_of (transfer_help s caller dst v).1 caller = balance_of s caller - v ∧
          balance_of (transfer_help s caller dst v).1 dst = balance_of s dst + v) ∧
       (caller = dst →
          ∀ x, balance_of (transfer_help s caller dst v).1 x = balance_of s x) ∧
       (∀ x, x ≠ caller → x ≠ dst →
          balance_of (transfer_help s caller dst v).1 x = balance_of s x)) ∧
    (balance_of s caller < v →
       (transfer_help s caller dst v).2.1 = TxResult.err Error.InsufficentBalance) := by
  refine ⟨fun h => ⟨?_,
            fun hne => ⟨transfer_balance_src s caller dst v h hne,
              transfer_balance_dst s caller dst v h hne⟩,
            fun heq => ?_,
            fun x hx1 hx2 => transfer_balance_other s caller dst x v h hx1 hx2⟩,
          fun h => ?_⟩
  · rw [transfer_help_ge s caller dst v h]
  · subst heq
    exact fun x => transfer_balance_self s caller x v h
  · rw [transfer_help_lt s caller dst v h]

/-- Witness for C5: a concrete successful transfer and a concrete failing
one. -/
theorem C5_transfer_spec_witness :
    (transfer_help ex0 0 1 4).2.1 = TxResult.ok ∧
    balance_of (transfer_help ex0 0 1 4).1 0 = balance_of ex0 0 - 4 ∧
    balance_of (transfer_help ex0 0 1 4).1 1 = balance_of ex0 1 + 4 ∧
    balance_of (transfer_help ex0 0 1 4).1 2 = balance_of ex0 2 ∧
    (transfer_help ex0 0 1 20).2.1 = TxResult.err Error.InsufficentBalance :=
  ⟨((C5_transfer_spec ex0 0 1 4).1 (by decide)).1,
   (((C5_transfer_spec ex0 0 1 4).1 (by decide)).2.1 (by decide)).1,
   (((C5_transfer_spec ex0 0 1 4).1 (by decide)).2.1 (by decide)).2,
   ((C5_transfer_spec ex0 0 1 4).1 (by decide)).2.2.2 2 (by decide) (by decide),
   (C5_transfer_spec ex0 0 1 20).2 (by decide)⟩

/-- Claim C10: a sufficiently funded self-transfer succeeds and leaves every
balance exactly as before, because the recipient balance is re-read after
the debited sender balance has been stored. -/
theorem C10_self_transfer (s : Erc20) (a : AccountId) (v : Nat)
    (h : v ≤ balance_of s a) :
    (transfer_help s a a v).2.1 = TxResult.ok ∧
    ∀ x, balance_of (transfer_help s a a v).1 x = balance_of s x := by
  refine ⟨?_, fun x => transfer_balance_self s a x v h⟩
  rw [transfer_help_ge s a a v h]

/-- Witness for C10 on a concrete self-transfer. -/
theorem C10_self_transfer_witness :
    (transfer_help ex0 0 0 4).2.1 = TxResult.ok ∧
    balance_of (transfer_help ex0 0 0 4).1 0 = balance_of ex0 0 ∧
    balance_of (transfer_help ex0 0 0 4).1 1 = balance_of ex0 1 :=
  ⟨(C10_self_transfer ex0 0 4 (by decide)).1,
   (C10_self_transfer ex0 0 4 (by decide)).2 0,
   (C10_self_transfer ex0 0 4 (by decide)).2 1⟩

/-- Claim C6 fails as stated: in a reachable state, a delegated transfer
whose recipient is the owner succeeds and changes the owner's balance, which
the claim says is left untouched. -/
theorem C6_counterexample :
    Reachable exApprove ∧
    (transfer_from_help exApprove 1 0 0 5).2.1 = TxResult.ok ∧
    balance_of (transfer_from_help exApprove 1 0 0 5).1 0 ≠ balance_of exApprove 0 :=
  ⟨Reachable.approve ex0 0 1 5 (Reachable.init 10 0), by decide, by decide⟩

/-- Claim C6 (amended): a delegated transfer with sufficient allowance
succeeds, decrements the pair allowance, credits the recipient and leaves
every other balance (in particular the owner's and the caller's whenever
they differ from the recipient) untouched; with insufficient allowance it
fails with InsufficentAllowance regardless of balances, changing nothing. -/
theorem C6_transfer_from_amended (s : Erc20) (c o d : AccountId) (v : Nat) :
    (v ≤ allowance s o c →
       (transfer_from_help s c o d v).2.1 = TxResult.ok ∧
       allowance (transfer_from_help s c o d v).1 o c = allowance s o c - v ∧
       balance_of (transfer_from_help s c o d v).1 d = balance_of s d + v ∧
       (∀ x, x ≠ d → balance_of (transfer_from_help s c o d v).1 x = balance_of s x)) ∧
    (allowance s o c < v →
       (transfer_from_help s c o d v).2.1 = TxResult.err Error.InsufficentAllowance ∧
       (transfer_from_help s c o d v).1 = s) := by
  refine ⟨fun h => ⟨?_, transfer_from_allowance_pair s c o d v h,
            transfer_from_balance_dst s c o d v h,
            fun x hx => transfer_from_balance_other s c o d x v h hx⟩,
          fun h => ?_⟩
  · rw [transfer_from_help_ge s c o d v h]
  · rw [transfer_from_help_lt s c o d v h]
    exact ⟨rfl, rfl⟩

/-- Witness for the amended C6: a concrete successful delegated transfer and
a concrete failing one. -/
theorem C6_transfer_from_amended_witness :
    ((transfer_from_help exApprove 1 0 2 3).2.1 = TxResult.ok ∧
     allowance (transfer_from_help exApprove 1 0 2 3).1 0 1 = allowance exApprove 0 1 - 3 ∧
     balance_of (transfer_from_help exApprove 1 0 2 3).1 2 = balance_of exApprove 2 + 3 ∧
     balance_of (transfer_from_help exApprove 1 0 2 3).1 0 = balance_of exApprove 0) ∧
    ((transfer_from_help exApprove 1 0 2 20).2.1 = TxResult.err Error.InsufficentAllowance ∧
     (transfer_from_help exApprove 1 0 2 20).1 = exApprove) :=
  ⟨⟨((C6_transfer_from_amended exApprove 1 0 2 3).1 (by decide)).1,
    ((C6_transfer_from_amended exApprove 1 0 2 3).1 (by decide)).2.1,
    ((C6_transfer_from_amended exApprove 1 0 2 3).1 (by decide)).2.2.1,
    ((C6_transfer_from_amended exApprove 1 0 2 3).1 (by decide)).2.2.2 0 (by decide)⟩,
   (C6_transfer_from_amended exApprove 1 0 2 20).2 (by decide)⟩

/-- Claim C7: `issue` succeeds exactly for the issuer fixed at construction,
crediting the caller and growing total_supply by the value; any other caller
gets NotIssuer with the state unchanged, and no other operation can return
NotIssuer. -/
theorem C7_issue_spec (s : Erc20) (caller : AccountId) (v ts : Nat) (c0 : AccountId) :
    ((issue_help s caller v).2.1 = TxResult.ok ↔ caller = s.issuer) ∧
    (caller = s.issuer →
       balance_of (issue_help s caller v).1 caller = balance_of s caller + v ∧
       (issue_help s caller v).1.total_supply = s.total_supply + v) ∧
    (caller ≠ s.issuer →
       (issue_help s caller v).2.1 = TxResult.err Error.NotIssuer ∧
       (issue_help s caller v).1 = s) ∧
    ((new ts c0).1.issuer = c0) ∧
    (∀ a b w, (transfer_help s a b w).2.1 ≠ TxResult.err Error.NotIssuer) ∧
    (∀ o sp w, (approve_help s o sp w).2.1 ≠ TxResult.err Error.NotIssuer) ∧
    (∀ c o d w, (transfer_from_help s c o d w).2.1 ≠ TxResult.err Error.NotIssuer) ∧
    (∀ a w, (burn_help s a w).2.1 ≠ TxResult.err Error.NotIssuer) := by
  refine ⟨?_, fun h => ⟨issue_balance s caller v h, issue_total s caller v h⟩,
          fun h => ?_, rfl, fun a b w => ?_, fun o sp w => ?_,
          fun c o d w => ?_, fun a w => ?_⟩
  · by_cases h : caller = s.issuer
    · rw [issue_help_eq s caller v h]
      simp [h]
    · rw [issue_help_ne s caller v h]
      simp [h]
  · rw [issue_help_ne s caller v h]
    exact ⟨rfl, rfl⟩
  · by_cases h : balance_of s a < w
    · rw [transfer_help_lt s a b w h]
      simp
    · rw [transfer_help_ge s a b w (Nat.le_of_not_lt h)]
      simp
  · by_cases h : balance_of s o < w
    · rw [approve_help_lt s o sp w h]
      simp
    · rw [approve_help_ge s o sp w (Nat.le_of_not_lt h)]
      simp
  · by_cases h : allowance s o c < w
    · rw [transfer_from_help_lt s c o d w h]
      simp
    · rw [transfer_from_help_ge s c o d w (Nat.le_of_not_lt h)]
      simp
  · by_cases h : balance_of s a < w
    · rw [burn_help_lt s a w h]
      simp
    · rw [burn_help_ge s a w (Nat.le_of_not_lt h)]
      simp

/-- Witness for C7: the issuer's issue succeeds with the stated effects on a
concrete ledger, a non-issuer caller fails with NotIssuer and no change. -/
theorem C7_issue_spec_witness :
    (balance_of (issue_help ex0 0 7).1 0 = balance_of ex0 0 + 7 ∧
     (issue_help ex0 0 7).1.total_supply = ex0.total_supply + 7) ∧
    ((issue_help ex0 1 7).2.1 = TxResult.err Error.NotIssuer ∧
     (issue_help ex0 1 7).1 = ex0) :=
  ⟨(C7_issue_spec ex0 0 7 10 0).2.1 (by decide),
   (C7_issue_spec ex0 1 7 10 0).2.2.1 (by decide)⟩

/-- Claim C8: the constructor emits exactly the Create notification, and
each mutating operation emits exactly the one matching notification when it
succeeds and none when it fails. -/
theorem C8_events_spec (s : Erc20) (ts v : Nat) (c0 a b o sp c d : AccountId) :
    (new ts c0).2 = [Event.Create c0 ts] ∧
    (transfer_help s a b v).2.2 =
      (if (transfer_help s a b v).2.1 = TxResult.ok then [Event.Transfer a b v] else []) ∧
    (approve_help s o sp v).2.2 =
      (if (approve_help s o sp v).2.1 = TxResult.ok then [Event.Approval o sp v] else []) ∧
    (transfer_from_help s c o d v).2.2 =
      (if (transfer_from_help s c o d v).2.1 = TxResult.ok then [Event.TransferFrom c o d v] else []) ∧
    (burn_help s a v).2.2 =
      (if (burn_help s a v).2.1 = TxResult.ok then [Event.Burn a v] else []) ∧
    (issue_help s a v).2.2 =
      (if (issue_help s a v).2.1 = TxResult.ok then [Event.Issue a v] else []) := by
  refine ⟨rfl, ?_, ?_, ?_, ?_, ?_⟩
  · by_cases h : balance_of s a < v
    · rw [transfer_help_lt s a b v h]
      simp
    · rw [transfer_help_ge s a b v (Nat.le_of_not_lt h)]
      simp
  · by_cases h : balance_of s o < v
    · rw [approve_help_lt s o sp v h]
      simp
    · rw [approve_help_ge s o sp v (Nat.le_of_not_lt h)]
      simp
  · by_cases h : allowance s o c < v
    · rw [transfer_from_help_lt s c o d v h]
      simp
    · rw [transfer_from_help_ge s c o d v (Nat.le_of_not_lt h)]
      simp
  · by_cases h : balance_of s a < v
    · rw [burn_help_lt s a v h]
      simp
    · rw [burn_help_ge s a v (Nat.le_of_not_lt h)]
      simp
  · by_cases h : a = s.issuer
    · rw [issue_help_eq s a v h]
      simp
    · rw [issue_help_ne s a v h]
      simp

/-- Claim C4 fails as stated: already in a reachable state (construction
with supply 2^128 - 1) a single issue of value 1 makes the unchecked
addition total_supply + value reach 2^128, overflowing the u128 amount
type. -/
theorem C4_counterexample : ¬ claimC4 := by
  intro hclaim
  have h1 := (hclaim exBig (Reachable.init (U128 - 1) 0) 0 1 0 1 1 2 1).2.2.2.2
  have h2 := (h1 rfl).2
  have h3 : exBig.total_supply = U128 - 1 := rfl
  have h4 : 0 < U128 := Nat.two_pow_pos 128
  rw [h3] at h2
  omega

/-- Claim C4 (amended): in every reachable state whose total_supply fits the
u128 amount type, every subtraction is covered by the operation's
precondition comparison, and the additions performed by transfer, approve
and transfer_from cannot overflow the amount type; the additions of issue
remain unchecked and can overflow (see the counterexample). -/
theorem C4_checked_arithmetic_amended (s : Erc20) (h : Reachable s)
    (hts : s.total_supply < U128) (a b o sp c d : AccountId) (v : Nat) :
    subGuards s a b o sp c d v ∧ transferAddsFit s a b v ∧
    approveAddsFit s o sp v ∧ transferFromAddsFit s c o d v := by
  have hc := reachable_conserved s h
  simp only [conserved] at hc
  refine ⟨?_, ?_, ?_, ?_⟩
  · unfold subGuards
    refine ⟨fun hok => ?_, fun hok => ?_, fun hok => ?_, fun hok => ?_⟩
    · by_cases hcond : balance_of s a < v
      · rw [transfer_help_lt s a b v hcond] at hok
        simp at hok
      · exact Nat.le_of_not_lt hcond
    · by_cases hcond : balance_of s o < v
      · rw [approve_help_lt s o sp v hcond] at hok
        simp at hok
      · exact Nat.le_of_not_lt hcond
    · by_cases hcond : allowance s o c < v
      · rw [transfer_from_help_lt s c o d v hcond] at hok
        simp at hok
      · exact Nat.le_of_not_lt hcond
    · by_cases hcond : balance_of s a < v
      · rw [burn_help_lt s a v hcond] at hok
        simp at hok
      · have hv := Nat.le_of_not_lt hcond
        have hle := lookupD_le_sumVals s.balances a
        simp only [balance_of] at hv
        exact ⟨Nat.le_of_not_lt hcond,
          Nat.le_trans (Nat.le_trans hv hle) (Nat.le.intro hc)⟩
  · unfold transferAddsFit
    intro hv
    have e1 := sumVals_insertM s.balances a (balance_of s a - v)
    have e2 := lookupD_le_sumVals (insertM s.balances a (balance_of s a - v)) b
    have e3 := lookupD_le_sumVals s.balances a
    simp only [balance_of] at e1 e2 hv ⊢
    omega
  · unfold approveAddsFit
    intro hv
    have e3 := lookupD_le_sumVals s.balances o
    have e4 := lookupD_le_sumVals s.allowances (o, sp)
    simp only [balance_of] at hv
    simp only [allowance]
    omega
  · unfold transferFromAddsFit
    intro hv
    have e3 := lookupD_le_sumVals s.balances d
    have e4 := lookupD_le_sumVals s.allowances (o, c)
    simp only [allowance] at hv
    simp only [balance_of]
    omega

/-- Witness for the amended C4 on a concrete reachable ledger. -/
theorem C4_checked_arithmetic_amended_witness :
    subGuards ex0 0 1 0 1 1 2 5 ∧ transferAddsFit ex0 0 1 5 ∧
    approveAddsFit ex0 0 1 5 ∧ transferFromAddsFit ex0 1 0 2 5 :=
  C4_checked_arithmetic_amended ex0 (Reachable.init 10 0) (by decide) 0 1 0 1 1 2 5
